import Mathlib

/-!
Verification of the WebMusic AI lyrics service core
(src/AI/Lyrics/app.py and src/AI/Lyrics/transcribe.py).

The development embeds, faithfully to the Python source:
  * `format_timestamp` (identical in app.py and transcribe.py), modelled at
    the resolution of Python's `timedelta`: the input is a nonnegative number
    of microseconds.  `timedelta` normalises to days/seconds/microseconds, so
    `td.seconds = (u / 10^6) % 86400` and `td.microseconds = u % 10^6`.
  * the SMB chunked download loop of `download_smb_file`, as a fuel-indexed
    loop over an abstract read primitive (the `while True` of the source),
    together with a read model of a remote file of known contents;
  * the `/transcribe` request handler `transcribe_audio`, with the outcomes
    of the model check, config check, fetch and inference made explicit, and
    the scratch-file lifecycle tracked in a state record.
-/

namespace WebMusic

/-! ## Timestamp formatter (app.py lines 30-34, transcribe.py lines 6-12) -/

/-- Embeds `timedelta(seconds=...).seconds`: whole seconds within the day. -/
def tdSeconds (u : Nat) : Nat := (u / 1000000) % 86400

/-- Embeds `timedelta(seconds=...).microseconds`: the sub-second remainder in microseconds. -/
def tdMicroseconds (u : Nat) : Nat := u % 1000000

/-- The `minutes` result of `divmod(td.seconds, 60)`. -/
def mmField (u : Nat) : Nat := tdSeconds u / 60

/-- The `remaining_seconds` result of `divmod(td.seconds, 60)`. -/
def ssField (u : Nat) : Nat := tdSeconds u % 60

/-- Embeds `milliseconds = int(td.microseconds / 10000)`: the CC field, by integer
truncation of the microseconds. -/
def ccField (u : Nat) : Nat := tdMicroseconds u / 10000

/-- Python `f"{n:02d}"` for a nonnegative `n`. -/
def pad2 (n : Nat) : String := if n < 10 then "0" ++ Nat.repr n else Nat.repr n

/-- Embeds `format_timestamp`, returning the f-string of minutes, remaining seconds
and milliseconds, each zero-padded to width 2. -/
def format_timestamp (u : Nat) : String :=
  "[" ++ pad2 (mmField u) ++ ":" ++ pad2 (ssField u) ++ "." ++ pad2 (ccField u) ++ "]"

/-- Division rounding to nearest, for contrast with the truncation the code uses. -/
def roundDiv (a b : Nat) : Nat := (a + b / 2) / b

end WebMusic

namespace WebMusic

/-- C1: the CC field is the truncated quotient of the sub-second microsecond
remainder by 10^4; `format(0.0) = "[00:00.00]"` and
`format(65.256) = "[01:05.25]"` (65.256 s = 65256000 microseconds after
timedelta's rounding to microsecond resolution); at 65.256 the field is 25
where rounding to the nearest hundredth would give 26. -/
theorem c1_cc_truncation :
    (∀ u : Nat, ccField u = u % 1000000 / 10000) ∧
    format_timestamp 0 = "[00:00.00]" ∧
    format_timestamp 65256000 = "[01:05.25]" ∧
    ccField 65256000 = 25 ∧ roundDiv (tdMicroseconds 65256000) 10000 = 26 := by
  refine ⟨fun u => rfl, ?_, ?_, ?_, ?_⟩ <;> decide

/-- C2 counterexample: at 86400 seconds (one day, 86400000000 microseconds)
the minutes field is 0, not the total whole minutes 1440, because
`timedelta.seconds` wraps modulo 86400; the output is `[00:00.00]`, not
`[1440:00.00]`. -/
theorem c2_minutes_wrap_counterexample :
    mmField 86400000000 = 0 ∧ 86400000000 / 60000000 = 1440 ∧
    format_timestamp 86400000000 = "[00:00.00]" ∧
    (format_timestamp 86400000000 == "[1440:00.00]") = false := by
  refine ⟨?_, ?_, ?_, ?_⟩ <;> decide

/-- C2 amended: for inputs below one day (86400 seconds) the MM field is the
total whole minutes of the input, not capped at 59 and never wrapped to an
hours field — in particular `format(3600.0) = "[60:00.00]"`; inputs of a day
or more are reduced modulo 86400 seconds by `timedelta` normalisation, so the
"arbitrarily large inputs" part of the claim fails. -/
theorem c2_minutes_unbounded_below_one_day (u : Nat) (h : u < 86400000000) :
    mmField u = u / 60000000 ∧ format_timestamp 3600000000 = "[60:00.00]" := by
  constructor
  · have hlt : u / 1000000 < 86400 := by
      apply Nat.div_lt_of_lt_mul
      omega
    unfold mmField tdSeconds
    rw [Nat.mod_eq_of_lt hlt, Nat.div_div_eq_div_mul]
  · decide

/-- C2 witness: the amended statement at 3600 seconds, whose minutes field is
60. -/
theorem c2_minutes_unbounded_below_one_day_witness :
    mmField 3600000000 = 3600000000 / 60000000 ∧
    format_timestamp 3600000000 = "[60:00.00]" :=
  c2_minutes_unbounded_below_one_day 3600000000 (by decide)

/-! ## SMB fetch loop (app.py lines 65-101, `download_smb_file`) -/

/-- The status `STATUS_END_OF_FILE` (0xC0000011) that the loop treats as
successful end of stream. -/
def STATUS_END_OF_FILE : Nat := 0xC0000011

/-- The fixed chunk size requested by every `file_open.read(offset, 65536)`. -/
def CHUNK : Nat := 65536

/-- Model of `Open.read` against a remote file of known contents: a read at or
past the end of the file fails with `STATUS_END_OF_FILE`; otherwise it returns
up to `count` bytes starting at `offset`. -/
def smbRead (file : List Nat) (offset count : Nat) : Except Nat (List Nat) :=
  if file.length ≤ offset then .error STATUS_END_OF_FILE
  else .ok ((file.drop offset).take count)

/-- The `while True` body of `download_smb_file`, over an abstract read
primitive.  Fuel bounds the unbounded source loop; `none` means the fuel ran
out.  The result carries the list of offsets at which reads were issued and
either the accumulated bytes written to the destination (`.ok`) or the
propagated non-EOF protocol status (`.error`), mirroring:
zero-length data breaks the loop, `STATUS_END_OF_FILE` breaks the loop, any
other `SMBResponseException` status is re-raised, and otherwise the data is
appended and the offset advanced by its length. -/
def fetchLoop (read : Nat → Except Nat (List Nat)) :
    Nat → Nat → List Nat → Option (List Nat × Except Nat (List Nat))
  | 0, _, _ => none
  | fuel + 1, offset, acc =>
    match read offset with
    | .error s =>
        if s = STATUS_END_OF_FILE then some ([offset], .ok acc)
        else some ([offset], .error s)
    | .ok data =>
        if data.isEmpty then some ([offset], .ok acc)
        else
          match fetchLoop read fuel (offset + data.length) (acc ++ data) with
          | none => none
          | some (offs, r) => some (offset :: offs, r)

/-- The function `download_smb_file` restricted to its transfer loop: read 64 KiB chunks of
the remote file from offset 0 into an initially empty destination.  The fuel
`file.length + 1` is enough for the loop to reach its natural termination. -/
def download_smb_file (file : List Nat) :
    Option (List Nat × Except Nat (List Nat)) :=
  fetchLoop (fun off => smbRead file off CHUNK) (file.length + 1) 0 []

lemma fetchLoop_succ (read : Nat → Except Nat (List Nat)) (fuel offset : Nat)
    (acc : List Nat) :
    fetchLoop read (fuel + 1) offset acc
      = match read offset with
        | .error s =>
            if s = STATUS_END_OF_FILE then some ([offset], .ok acc)
            else some ([offset], .error s)
        | .ok data =>
            if data.isEmpty then some ([offset], .ok acc)
            else
              match fetchLoop read fuel (offset + data.length) (acc ++ data) with
              | none => none
              | some (offs, r) => some (offset :: offs, r) := rfl

lemma fetchLoop_smbRead (file : List Nat) :
    ∀ fuel offset acc, file.length - offset < fuel →
    ∃ offs, fetchLoop (fun off => smbRead file off CHUNK) fuel offset acc
        = some (offs, .ok (acc ++ file.drop offset)) ∧
      offs.head? = some offset ∧ offs.Chain' (· < ·) := by
  intro fuel
  induction fuel with
  | zero => intro offset acc h; omega
  | succ n ih =>
    intro offset acc h
    by_cases hoff : file.length ≤ offset
    · refine ⟨[offset], ?_, rfl, List.chain'_singleton offset⟩
      rw [List.drop_eq_nil_of_le hoff, List.append_nil]
      simp [fetchLoop, smbRead, hoff]
    · push_neg at hoff
      have hlen : ((file.drop offset).take CHUNK).length
          = min 65536 (file.length - offset) := by
        simp [List.length_take, List.length_drop, CHUNK]
      have hpos : 0 < ((file.drop offset).take CHUNK).length := by omega
      have hne : ((file.drop offset).take CHUNK).isEmpty = false := by
        cases hc : (file.drop offset).take CHUNK with
        | nil => rw [hc] at hpos; simp at hpos
        | cons a l => simp
      have hfuel : file.length - (offset + ((file.drop offset).take CHUNK).length)
          < n := by omega
      obtain ⟨offs, heq, hhead, hchain⟩ :=
        ih (offset + ((file.drop offset).take CHUNK).length)
          (acc ++ (file.drop offset).take CHUNK) hfuel
      refine ⟨offset :: offs, ?_, rfl, ?_⟩
      · have hread : smbRead file offset CHUNK
            = .ok ((file.drop offset).take CHUNK) := by
          unfold smbRead
          rw [if_neg (by omega)]
        have hjoin : (acc ++ (file.drop offset).take CHUNK)
            ++ file.drop (offset + ((file.drop offset).take CHUNK).length)
            = acc ++ file.drop offset := by
          rw [List.append_assoc]
          congr 1
          rcases Nat.le_total 65536 (file.length - offset) with hc | hc
          · have h1 : ((file.drop offset).take CHUNK).length = CHUNK := by
              rw [hlen]
              unfold CHUNK
              omega
            rw [h1, List.drop_take_append_drop]
          · have h1 : ((file.drop offset).take CHUNK).length
                = file.length - offset := by omega
            have h2 : (file.drop offset).take CHUNK = file.drop offset := by
              apply List.take_of_length_le
              rw [List.length_drop]
              unfold CHUNK
              omega
            have h3 : file.drop (offset + (file.length - offset)) = [] :=
              List.drop_eq_nil_of_le (by omega)
            rw [h1, h2, h3, List.append_nil]
        rw [fetchLoop_succ, hread]
        simp only [hne, Bool.false_eq_true, if_false, heq, hjoin]
      · rw [List.chain'_cons']
        refine ⟨?_, hchain⟩
        intro y hy
        rw [hhead] at hy
        simp only [Option.mem_def, Option.some_inj] at hy
        omega

/-- C3: against the model of an N-byte remote file, the transfer loop of
`download_smb_file` issues reads at strictly increasing offsets starting at 0
and succeeds with exactly the N bytes of the file (the final read is answered
by `STATUS_END_OF_FILE`, which is treated as completion); moreover, for any
read primitive, a zero-length read and an EOF status both terminate the loop
successfully with the bytes accumulated so far, while any other protocol
status propagates as the loop's error; each read requests `CHUNK` = 65536
bytes. -/
theorem c3_fetch_loop :
    (∀ file : List Nat, ∃ offs : List Nat,
      download_smb_file file = some (offs, .ok file) ∧
      offs.head? = some 0 ∧ offs.Chain' (· < ·)) ∧
    (∀ (read : Nat → Except Nat (List Nat)) (fuel offset : Nat) (acc : List Nat),
      read offset = .ok [] →
      fetchLoop read (fuel + 1) offset acc = some ([offset], .ok acc)) ∧
    (∀ (read : Nat → Except Nat (List Nat)) (fuel offset : Nat) (acc : List Nat),
      read offset = .error STATUS_END_OF_FILE →
      fetchLoop read (fuel + 1) offset acc = some ([offset], .ok acc)) ∧
    (∀ (read : Nat → Except Nat (List Nat)) (fuel offset : Nat) (acc : List Nat)
      (s : Nat), read offset = .error s → (s == STATUS_END_OF_FILE) = false →
      fetchLoop read (fuel + 1) offset acc = some ([offset], .error s)) ∧
    CHUNK = 65536 := by
  refine ⟨?_, ?_, ?_, ?_, rfl⟩
  · intro file
    obtain ⟨offs, heq, hhead, hchain⟩ :=
      fetchLoop_smbRead file (file.length + 1) 0 [] (by omega)
    exact ⟨offs, by simpa [download_smb_file] using heq, hhead, hchain⟩
  · intro read fuel offset acc h
    simp [fetchLoop, h]
  · intro read fuel offset acc h
    simp [fetchLoop, h]
  · intro read fuel offset acc s h hs
    have hs' : s ≠ STATUS_END_OF_FILE := by simpa using hs
    simp [fetchLoop, h, hs']

/-- C3 witness: the full-transfer part at a concrete 3-byte file, and the three
read-primitive parts at concrete read functions. -/
theorem c3_fetch_loop_witness :
    (∃ offs : List Nat,
      download_smb_file [7, 8, 9] = some (offs, .ok [7, 8, 9]) ∧
      offs.head? = some 0 ∧ offs.Chain' (· < ·)) ∧
    fetchLoop (fun _ => .ok []) 5 2 [1] = some ([2], .ok [1]) ∧
    fetchLoop (fun _ => .error STATUS_END_OF_FILE) 5 2 [1] = some ([2], .ok [1]) ∧
    fetchLoop (fun _ => .error 5) 3 0 [] = some ([0], .error 5) :=
  ⟨c3_fetch_loop.1 [7, 8, 9],
   c3_fetch_loop.2.1 (fun _ => .ok []) 4 2 [1] rfl,
   c3_fetch_loop.2.2.1 (fun _ => .error STATUS_END_OF_FILE) 4 2 [1] rfl,
   c3_fetch_loop.2.2.2.1 (fun _ => .error 5) 2 0 [] 5 rfl (by decide)⟩

/-! ## Resource discipline of `download_smb_file` (app.py lines 65-101) -/

/-- Outcome of one fallible step: normal return or a raised exception. -/
inductive StepOutcome where
  | ok : StepOutcome
  | raise (msg : String) : StepOutcome

/-- The fallible steps of `download_smb_file`, in source order:
`connection.connect()`, `session.connect()`, `tree.connect()`,
`file_open.create(...)`, and the whole destination-open/read loop inside the
inner `try` (including a non-EOF protocol error the loop re-raises). -/
structure SmbRun where
  connectStep : StepOutcome
  sessionStep : StepOutcome
  treeStep : StepOutcome
  createStep : StepOutcome
  readStep : StepOutcome

/-- Resource accounting for one `download_smb_file` call: whether the remote
handle reached the opened state (a successful `create`), whether
`file_open.close()` ran, and how many times `connection.disconnect()` ran. -/
structure SmbResources where
  handleOpened : Bool
  handleClosed : Bool
  disconnects : Nat

/-- A handle is leaked when it was opened but never closed. -/
def smbLeaked (r : SmbResources) : Bool := r.handleOpened && !r.handleClosed

/-- Control flow of `download_smb_file`: the body of the outer `try` runs the
four connection steps, and on a successful `create` enters the inner
`try/finally` whose `finally` closes the handle; the outer `finally`
disconnects the connection on every path. -/
def download_smb_resources (run : SmbRun) : Except String Unit × SmbResources :=
  let inner : Except String Unit × SmbResources :=
    match run.connectStep with
    | .raise m => (.error m, ⟨false, false, 0⟩)
    | .ok =>
      match run.sessionStep with
      | .raise m => (.error m, ⟨false, false, 0⟩)
      | .ok =>
        match run.treeStep with
        | .raise m => (.error m, ⟨false, false, 0⟩)
        | .ok =>
          match run.createStep with
          | .raise m => (.error m, ⟨false, false, 0⟩)
          | .ok =>
            let body : Except String Unit :=
              match run.readStep with
              | .raise m => .error m
              | .ok => .ok ()
            (body, ⟨true, true, 0⟩)
  (inner.1, { inner.2 with disconnects := inner.2.disconnects + 1 })

/-- C5: on every combination of step outcomes — success or an exception at
connect, authenticate, tree connect, open, or read — `download_smb_file`
disconnects the transport connection exactly once and never leaks the remote
file handle (every opened handle is closed); on the all-success run the handle
is actually opened and closed. -/
theorem c5_resource_discipline :
    (∀ run : SmbRun,
      (download_smb_resources run).2.disconnects = 1 ∧
      smbLeaked (download_smb_resources run).2 = false) ∧
    (download_smb_resources ⟨.ok, .ok, .ok, .ok, .ok⟩).2.handleOpened = true ∧
    (download_smb_resources ⟨.ok, .ok, .ok, .ok, .ok⟩).2.handleClosed = true := by
  refine ⟨?_, rfl, rfl⟩
  intro run
  obtain ⟨c, s, t, cr, r⟩ := run
  cases c <;> cases s <;> cases t <;> cases cr <;> cases r <;>
    simp [download_smb_resources, smbLeaked]

/-! ## The `/transcribe` request handler (app.py lines 103-151) -/

/-- Python whitespace for `str.strip()`: space, tab, newline, carriage return,
vertical tab, form feed. -/
def isPySpace (c : Char) : Bool :=
  c = ' ' || c = '\t' || c = '\n' || c = '\r' || c = '\x0b' || c = '\x0c'

/-- Embeds `str.strip()`: remove leading and trailing whitespace. -/
def pyStrip (s : String) : String :=
  ⟨((s.data.dropWhile isPySpace).reverse.dropWhile isPySpace).reverse⟩

/-- The `smb_config` object of a request body. -/
structure SmbConfig where
  host : String
  share : String
  username : String
  password : String
  file_path : String

/-- One model-produced segment: `segment.start` at timedelta resolution
(microseconds) and the raw `segment.text`. -/
structure Segment where
  start : Nat
  text : String

/-- The per-file metadata the model returns alongside the segments. -/
structure TranscriptionInfo where
  language : String
  language_probability : Rat

/-- The `for segment in segments` loop of `transcribe_audio`: each iteration
appends `{"time": format_timestamp(segment.start), "text": segment.text.strip()}`
to `lines` and the stripped text to `full_text`. -/
def segmentLoop (segs : List Segment) : List (String × String) × List String :=
  segs.foldl
    (fun acc seg =>
      (acc.1 ++ [(format_timestamp seg.start, pyStrip seg.text)],
       acc.2 ++ [pyStrip seg.text]))
    ([], [])

/-- The JSON body returned on success. -/
structure TranscriptionResponse where
  language : String
  language_prob : Rat
  segments : List (String × String)
  full_text : String

/-- What `download_smb_file` did for this request: returned normally or raised. -/
inductive FetchOutcome where
  | ok : FetchOutcome
  | raise (msg : String) : FetchOutcome

/-- What `model.transcribe` did: produced segments and info, or raised. -/
inductive TransOutcome where
  | ok (segs : List Segment) (info : TranscriptionInfo) : TransOutcome
  | raise (msg : String) : TransOutcome

/-- The environment of one `/transcribe` request: whether the startup model
load succeeded (`model` is not `None`), the request's `smb_config`, and the
outcomes of the fetch and inference calls. -/
structure RequestEnv where
  modelLoaded : Bool
  smb_config : Option SmbConfig
  fetch : FetchOutcome
  transcribe : TransOutcome

/-- Scratch-file accounting for one request: how many scratch files
`tempfile.NamedTemporaryFile` allocated, whether one is on disk now, and how
many times `os.remove` ran on it. -/
structure ScratchState where
  created : Nat
  onDisk : Bool
  removed : Nat

/-- The handler's terminal outcome: an `HTTPException` (status, detail) or the
200 body. -/
def HandlerResult := Except (Nat × String) TranscriptionResponse

/-- The handler `transcribe_audio`: model check (503), config check (400), scratch file
allocation, then `try` fetch and inference (any exception becomes a 500 with
the exception's message), and a `finally` that removes the scratch file if it
exists. -/
def transcribe_audio (env : RequestEnv) : HandlerResult × ScratchState :=
  if env.modelLoaded = false then
    (.error (503, "Model not initialized"), ⟨0, false, 0⟩)
  else
    match env.smb_config with
    | none =>
        (.error (400, "SMB Config required (Local files not supported in this mode)"),
         ⟨0, false, 0⟩)
    | some _ =>
        let st : ScratchState := ⟨1, true, 0⟩
        let body : HandlerResult :=
          match env.fetch with
          | .raise m => .error (500, m)
          | .ok =>
            match env.transcribe with
            | .raise m => .error (500, m)
            | .ok segs info =>
                .ok ⟨info.language, info.language_probability,
                     (segmentLoop segs).1,
                     String.intercalate " " (segmentLoop segs).2⟩
        let st' : ScratchState :=
          if st.onDisk then { st with onDisk := false, removed := st.removed + 1 }
          else st
        (body, st')

/-- The HTTP status of a handler outcome (200 on a success body). -/
def responseStatus (r : HandlerResult) : Nat :=
  match r with
  | .error (s, _) => s
  | .ok _ => 200

lemma segmentLoop_foldl (segs : List Segment) (a : List (String × String))
    (b : List String) :
    segs.foldl
      (fun acc seg =>
        (acc.1 ++ [(format_timestamp seg.start, pyStrip seg.text)],
         acc.2 ++ [pyStrip seg.text])) (a, b)
      = (a ++ segs.map (fun s => (format_timestamp s.start, pyStrip s.text)),
         b ++ segs.map (fun s => pyStrip s.text)) := by
  induction segs generalizing a b with
  | nil => simp
  | cons s rest ih => simp [ih]

lemma segmentLoop_eq (segs : List Segment) :
    segmentLoop segs
      = (segs.map (fun s => (format_timestamp s.start, pyStrip s.text)),
         segs.map (fun s => pyStrip s.text)) := by
  unfold segmentLoop
  rw [segmentLoop_foldl]
  simp

lemma all_takeWhile (p : Char → Bool) (l : List Char) :
    (l.takeWhile p).all p = true := by
  induction l with
  | nil => rfl
  | cons a l ih =>
      by_cases h : p a <;> simp [List.takeWhile_cons, h, ih]

/-- C4: whenever a request passes the model check and the config check, the
scratch file is created once, and on every terminal outcome — fetch success
or failure, inference success or failure — it is removed exactly once and is
no longer on disk when the response is returned. -/
theorem c4_scratch_cleanup (env : RequestEnv) (h1 : env.modelLoaded = true)
    (h2 : env.smb_config.isSome = true) :
    (transcribe_audio env).2.created = 1 ∧
    (transcribe_audio env).2.onDisk = false ∧
    (transcribe_audio env).2.removed = 1 := by
  obtain ⟨m, cfg, f, t⟩ := env
  simp only at h1 h2
  subst h1
  cases cfg with
  | none => simp at h2
  | some c => cases f <;> cases t <;> simp [transcribe_audio]

/-- C4 witness: a request whose inference raises still ends with the scratch
file created once, removed once, and gone. -/
theorem c4_scratch_cleanup_witness :
    (transcribe_audio ⟨true, some ⟨"h", "s", "u", "p", "a.wav"⟩, .ok,
        .raise "boom"⟩).2.created = 1 ∧
    (transcribe_audio ⟨true, some ⟨"h", "s", "u", "p", "a.wav"⟩, .ok,
        .raise "boom"⟩).2.onDisk = false ∧
    (transcribe_audio ⟨true, some ⟨"h", "s", "u", "p", "a.wav"⟩, .ok,
        .raise "boom"⟩).2.removed = 1 :=
  c4_scratch_cleanup ⟨true, some ⟨"h", "s", "u", "p", "a.wav"⟩, .ok, .raise "boom"⟩
    rfl rfl

/-- C6 counterexample: with the model loaded, a valid config, and the fetch
raising the file-not-found protocol error, the handler's `except Exception`
maps the failure to status 500, not 404 — the code has no 404 path. -/
theorem c6_not_found_counterexample :
    responseStatus (transcribe_audio ⟨true, some ⟨"h", "s", "u", "p", "missing.wav"⟩,
        .raise "STATUS_OBJECT_NAME_NOT_FOUND", .raise ""⟩).1 = 500 ∧
    (responseStatus (transcribe_audio ⟨true, some ⟨"h", "s", "u", "p", "missing.wav"⟩,
        .raise "STATUS_OBJECT_NAME_NOT_FOUND", .raise ""⟩).1 == 404) = false := by
  exact ⟨rfl, rfl⟩

/-- C6 amended: when a request passes the configuration check and the fetch
raises — including the file-not-found case — the service responds with
status 500 carrying the exception message; no 404 is ever produced. -/
theorem c6_fetch_failure_maps_to_500 (env : RequestEnv) (msg : String)
    (h1 : env.modelLoaded = true) (h2 : env.smb_config.isSome = true)
    (h3 : env.fetch = .raise msg) :
    (transcribe_audio env).1 = .error (500, msg) ∧
    responseStatus (transcribe_audio env).1 = 500 := by
  obtain ⟨m, cfg, f, t⟩ := env
  simp only at h1 h2 h3
  subst h1
  subst h3
  cases cfg with
  | none => simp at h2
  | some c => exact ⟨rfl, rfl⟩

/-- C6 witness: the amended statement at a concrete file-not-found fetch
failure. -/
theorem c6_fetch_failure_maps_to_500_witness :
    (transcribe_audio ⟨true, some ⟨"h", "s", "u", "p", "missing.wav"⟩,
        .raise "not found", .ok [] ⟨"en", 1⟩⟩).1 = .error (500, "not found") ∧
    responseStatus (transcribe_audio ⟨true, some ⟨"h", "s", "u", "p", "missing.wav"⟩,
        .raise "not found", .ok [] ⟨"en", 1⟩⟩).1 = 500 :=
  c6_fetch_failure_maps_to_500
    ⟨true, some ⟨"h", "s", "u", "p", "missing.wav"⟩, .raise "not found",
     .ok [] ⟨"en", 1⟩⟩ "not found" rfl rfl rfl

/-- C7: with the model loaded, a request whose `smb_config` is null is
rejected with status 400 before any scratch file is allocated. -/
theorem c7_null_config_400_no_scratch (env : RequestEnv)
    (h1 : env.modelLoaded = true) (h2 : env.smb_config = none) :
    responseStatus (transcribe_audio env).1 = 400 ∧
    (transcribe_audio env).2.created = 0 ∧
    (transcribe_audio env).2.onDisk = false := by
  obtain ⟨m, cfg, f, t⟩ := env
  simp only at h1 h2
  subst h1
  subst h2
  exact ⟨rfl, rfl, rfl⟩

/-- C7 witness: a concrete null-config request. -/
theorem c7_null_config_400_no_scratch_witness :
    responseStatus (transcribe_audio ⟨true, none, .ok, .raise ""⟩).1 = 400 ∧
    (transcribe_audio ⟨true, none, .ok, .raise ""⟩).2.created = 0 ∧
    (transcribe_audio ⟨true, none, .ok, .raise ""⟩).2.onDisk = false :=
  c7_null_config_400_no_scratch ⟨true, none, .ok, .raise ""⟩ rfl rfl

/-- C8: on a successful transcription the response body lists, in the original
segment order, one `(time, text)` entry per produced segment — the formatted
start time with the stripped text — and `full_text` is the stripped texts
joined by a single space in that same order. -/
theorem c8_segments_and_full_text (env : RequestEnv) (segs : List Segment)
    (info : TranscriptionInfo) (h1 : env.modelLoaded = true)
    (h2 : env.smb_config.isSome = true) (h3 : env.fetch = .ok)
    (h4 : env.transcribe = .ok segs info) :
    (transcribe_audio env).1
      = .ok ⟨info.language, info.language_probability,
          segs.map (fun s => (format_timestamp s.start, pyStrip s.text)),
          String.intercalate " " (segs.map fun s => pyStrip s.text)⟩ := by
  obtain ⟨m, cfg, f, t⟩ := env
  simp only at h1 h2 h3 h4
  subst h1
  subst h3
  subst h4
  cases cfg with
  | none => simp at h2
  | some c => simp [transcribe_audio, segmentLoop_eq]

/-- C8 witness: a concrete successful request with two segments. -/
theorem c8_segments_and_full_text_witness :
    (transcribe_audio ⟨true, some ⟨"h", "s", "u", "p", "a.wav"⟩, .ok,
        .ok [⟨0, " Hello"⟩, ⟨65256000, "world "⟩] ⟨"en", 9 / 10⟩⟩).1
      = .ok ⟨"en", 9 / 10,
          [⟨0, (" Hello" : String)⟩, ⟨65256000, ("world " : String)⟩].map
            (fun s : Segment => (format_timestamp s.start, pyStrip s.text)),
          String.intercalate " "
            ([⟨0, (" Hello" : String)⟩, ⟨65256000, ("world " : String)⟩].map
              fun s : Segment => pyStrip s.text)⟩ :=
  c8_segments_and_full_text
    ⟨true, some ⟨"h", "s", "u", "p", "a.wav"⟩, .ok,
     .ok [⟨0, " Hello"⟩, ⟨65256000, "world "⟩] ⟨"en", 9 / 10⟩⟩
    [⟨0, " Hello"⟩, ⟨65256000, "world "⟩] ⟨"en", 9 / 10⟩ rfl rfl rfl rfl

/-- C9: when the model failed to load at startup, every request gets status
503 — the model check runs before the config check, so 503 wins over 400. -/
theorem c9_model_check_first (env : RequestEnv) (h : env.modelLoaded = false) :
    responseStatus (transcribe_audio env).1 = 503 := by
  simp [transcribe_audio, h, responseStatus]

/-- C9 witness: a request with no `smb_config` against an unloaded model still
gets 503, not 400. -/
theorem c9_model_check_first_witness :
    responseStatus (transcribe_audio ⟨false, none, .ok, .raise ""⟩).1 = 503 :=
  c9_model_check_first ⟨false, none, .ok, .raise ""⟩ rfl

/-- C10: every `(time, text)` entry built by the segment loop, and every
contribution to the `full_text` join, carries `pyStrip` of the raw model text;
`pyStrip` removes exactly a whitespace prefix and a whitespace suffix of the
raw text; and on a text with surrounding whitespace the stored value differs
from the raw one. -/
theorem c10_text_stripped :
    (∀ segs : List Segment,
      (segmentLoop segs).1.map Prod.snd = segs.map (fun s => pyStrip s.text) ∧
      (segmentLoop segs).2 = segs.map (fun s => pyStrip s.text)) ∧
    (∀ s : String, ∃ pre post : List Char,
      s.data = pre ++ (pyStrip s).data ++ post ∧
      pre.all isPySpace = true ∧ post.all isPySpace = true) ∧
    pyStrip " Hello " = "Hello" ∧
    (pyStrip " Hello " == " Hello ") = false := by
  refine ⟨?_, ?_, by decide, by decide⟩
  · intro segs
    constructor
    · rw [segmentLoop_eq]
      simp
    · rw [segmentLoop_eq]
  · intro s
    refine ⟨s.data.takeWhile isPySpace,
      ((s.data.dropWhile isPySpace).reverse.takeWhile isPySpace).reverse,
      ?_, all_takeWhile isPySpace s.data, ?_⟩
    · conv_lhs => rw [← List.takeWhile_append_dropWhile (p := isPySpace) (l := s.data)]
      rw [List.append_assoc]
      congr 1
      have hdata : (pyStrip s).data
          = ((s.data.dropWhile isPySpace).reverse.dropWhile isPySpace).reverse := rfl
      rw [hdata, ← List.reverse_append, List.takeWhile_append_dropWhile,
        List.reverse_reverse]
    · rw [List.all_reverse]
      exact all_takeWhile isPySpace (s.data.dropWhile isPySpace).reverse
